import Mathlib

/-!
Shallow embedding of the product-substitution pipeline
(`rag_pipeline.py`, `main.py`, `vector_store.py`).

Conventions of the embedding:
* Python floats and Decimals are modelled as exact rationals (`ℚ`);
  `round(x, 2)` is modelled by `pyRound2`, round-half-to-even on the
  decimal value, the semantics of Python's `round`.
* Python dicts are modelled as association lists with first-match lookup
  and key-unique insertion (`dictGet`, `dictSet`, `dictPop`).
* Dict keys that may be missing are modelled as `Option` fields; a
  `d[k]` access on a possibly-missing key is an `Except`-raising
  operation (`getField`), mirroring `KeyError`.
* The generator `find_substitutes` together with the exception wrapper
  in `main.py` (which turns any raised exception into a terminal error
  event) is modelled as a function from an environment of collaborator
  outcomes to the list of emitted events plus the list of collaborator
  calls actually made.
-/

/-- Python's `round(x, 2)`: round to 2 decimal places, ties to even
(banker's rounding), on the exact decimal value. -/
def pyRound2 (q : ℚ) : ℚ :=
  let s : ℚ := q * 100
  let f : ℤ := Rat.floor s
  let frac : ℚ := s - f
  let r : ℤ :=
    if frac < 1/2 then f
    else if 1/2 < frac then f + 1
    else if f % 2 = 0 then f else f + 1
  (r : ℚ) / 100

section Dict

variable {β : Type}

/-- Python `store.get(key)`: first binding of the key, if any. -/
def dictGet (store : List (String × β)) (k : String) : Option β :=
  (store.find? (fun e => e.1 = k)).map (fun e => e.2)

/-- Python `store.pop(key, None)`: remove every binding of the key. -/
def dictPop (store : List (String × β)) (k : String) : List (String × β) :=
  store.filter (fun e => e.1 ≠ k)

/-- Python `store[key] = value`: bind the key, replacing any old binding. -/
def dictSet (store : List (String × β)) (k : String) (v : β) :
    List (String × β) :=
  (k, v) :: dictPop store k

end Dict

section Cache

variable {α : Type}

/-- `_cache_get` from `rag_pipeline.py`: returns the payload and the
store after the lookup (the lookup may evict). -/
def cache_get (ttl now : ℚ) (store : List (String × ℚ × α)) (key : String) :
    Option α × List (String × ℚ × α) :=
  if ttl ≤ 0 then (none, store)
  else
    match dictGet store key with
    | some entry =>
        if now - entry.1 < ttl then (some entry.2, store)
        else (none, dictPop store key)
    | none => (none, dictPop store key)

/-- `_cache_set` from `rag_pipeline.py`. -/
def cache_set (ttl now : ℚ) (store : List (String × ℚ × α)) (key : String)
    (value : α) : List (String × ℚ × α) :=
  if 0 < ttl then dictSet store key (now, value) else store

end Cache

/-- One stored `(date, count)` pair of `_request_counts` in `main.py`;
calendar dates are abstracted to naturals. -/
structure QuotaEntry where
  date : Nat
  count : Nat
deriving DecidableEq, Repr

/-- The effective count the handler reads: the stored count if the stored
date is today, else 0 (`main.py` line 55). -/
def effCount (today : Nat) (entry : Option QuotaEntry) : Nat :=
  match entry with
  | some e => if e.date = today then e.count else 0
  | none => 0

/-- The quota check-and-increment of `get_substitutes` in `main.py`:
returns whether the request is admitted and the stored entry afterwards.
On rejection the handler raises before storing, so the entry is unchanged. -/
def quotaStep (maxReq today : Nat) (entry : Option QuotaEntry) :
    Bool × Option QuotaEntry :=
  let count := effCount today entry
  if maxReq ≤ count then (false, entry)
  else (true, some ⟨today, count + 1⟩)

/-- State of one client's quota record after `n` same-day requests
starting from no stored entry. -/
def quotaRun (maxReq today : Nat) : Nat → Option QuotaEntry
  | 0 => none
  | n + 1 => (quotaStep maxReq today (quotaRun maxReq today n)).2

/-- The user-supplied source item (`SubstitutionRequest` in `main.py`,
after `model_dump()`: every key present, numeric fields defaulting to 0). -/
structure SourceItem where
  name : String
  description : String
  supercategory : String
  category : String
  quantity : ℚ
  quantity_unit : String
  unit_price : ℚ
  total_price : ℚ
deriving DecidableEq, Repr

/-- One item of the ranking collaborator's JSON response. Each field may
be missing (the schema is a request, not a guarantee), hence `Option`. -/
structure RawSub where
  sku : Option String
  rank : Option ℤ
  reason : Option String
  unit_type : Option String
  qty_needed : Option ℤ
  comparison_notes : Option String
deriving DecidableEq, Repr

/-- The ranking collaborator's parsed JSON response; the `substitutes`
key itself may be missing (`gemini_result.get("substitutes", [])`). -/
structure GeminiResult where
  substitutes : Option (List RawSub)
deriving DecidableEq, Repr

/-- A catalog record returned by `get_products_by_skus`. Price and
unit-of-measure columns are nullable. -/
structure Product where
  sku : String
  name : String
  brand_name : Option String
  customer_price : Option ℚ
  web_price : Option ℚ
  uom_qty : Option ℚ
  uom : Option String
deriving DecidableEq, Repr

/-- One hit returned by the vector-store collaborator in
`search_similar_products`: the metadata `sku` key may be absent
(`result.metadata.get("sku", "")`), as may `slim_doc` and `document`. -/
structure QResult where
  metadata_sku : Option String
  score : ℚ
  slim_doc : Option String
  document : Option String
deriving DecidableEq, Repr

/-- A retrieval candidate as assembled by `search_similar_products`. -/
structure Candidate where
  sku : String
  score : ℚ
  document : String
deriving DecidableEq, Repr

/-- Python `a or b` on an optional number: `none` and `0` are falsy. -/
def qOr (a : Option ℚ) (b : ℚ) : ℚ :=
  match a with
  | some x => if x = 0 then b else x
  | none => b

/-- Python `a or b` on an optional string: `none` and `""` are falsy. -/
def sOr (a : Option String) (b : String) : String :=
  match a with
  | some x => if x = "" then b else x
  | none => b

/-- The body of the result loop of `search_similar_products` in
`vector_store.py`, applied to the collaborator's raw results. -/
def search_similar_products (results : List QResult) (exclude_sku : String)
    (n_results : Nat) : List Candidate :=
  let candidates := results.filterMap (fun r =>
    let sku := r.metadata_sku.getD ""
    if exclude_sku ≠ "" ∧ sku = exclude_sku then none
    else some { sku := sku, score := r.score,
                document := (r.slim_doc.getD (sOr r.document "")) })
  candidates.take n_results

/-- `search_similar_products` including its collaborator call: the
underlying collaborator is queried with limit `n_results + 1`
(`limit=n_results + 1` in `vector_store.py`). -/
def search_similar_products_call (collaborator : Nat → List QResult)
    (exclude_sku : String) (n_results : Nat) : List Candidate :=
  search_similar_products (collaborator (n_results + 1)) exclude_sku n_results

/-- One fully-assembled substitute of the final payload
(`substitutes.append({...})` in `rag_pipeline.py`). -/
structure EnrichedSub where
  rank : ℤ
  reason : String
  unit_type : String
  qty_needed : ℤ
  comparison_notes : String
  sku : String
  product_name : String
  brand_name : Option String
  candidate_uom : String
  our_unit_price : ℚ
  our_total_spend : ℚ
  their_unit_price : Option ℚ
  their_total_spend : Option ℚ
  savings : Option ℚ
  savings_percentage : Option ℚ
  product_details : Product
  bullets : List String
  specs : List (String × String)
deriving DecidableEq, Repr

/-- Payload of a result event. `requests_remaining` is `none` as produced
by the pipeline and filled in by the handler in `main.py`. -/
structure ResultData where
  source_item : SourceItem
  candidates_evaluated : Option Nat
  message : Option String
  substitutes : List EnrichedSub
  requests_remaining : Option Nat
deriving DecidableEq, Repr

/-- A server-sent event dict as yielded by the pipeline. -/
inductive Event where
  | status (message : String)
  | result (data : ResultData)
  | error (message : String)
deriving DecidableEq, Repr

/-- An event is terminal when it is a result or an error. -/
def Event.isTerminal : Event → Bool
  | Event.status _ => false
  | Event.result _ => true
  | Event.error _ => true

/-- `d[k]` on a possibly-missing key: `KeyError` when absent. -/
def getField {γ : Type} (fieldName : String) (v : Option γ) :
    Except String γ :=
  match v with
  | some x => Except.ok x
  | none => Except.error ("KeyError: " ++ fieldName)

/-- `float(product.get("customer_price") or product.get("web_price") or 0)`:
per-substitute unit price with Python falsy-`or` precedence. -/
def unitPriceOf (p : Product) : ℚ :=
  qOr p.customer_price (qOr p.web_price 0)

/-- The user's total spend after the derivation step of
`find_substitutes`: a supplied `total_price` kept as-is unless it is
non-positive and a positive `unit_price` is available, in which case
`unit_price * quantity`. -/
def derivedTotalSpend (item : SourceItem) : ℚ :=
  if item.total_price ≤ 0 ∧ 0 < item.unit_price then
    item.unit_price * item.quantity
  else item.total_price

/-- `has_pricing = their_total_spend > 0 or their_unit_price > 0`. -/
def hasPricing (item : SourceItem) : Bool :=
  0 < derivedTotalSpend item ∨ 0 < item.unit_price

/-- `f"{product.get('uom_qty', 1)} {product.get('uom', 'Each')}"`:
`.get` with a default applies only when the key is absent. -/
def candidateUom (p : Product) : String :=
  toString (p.uom_qty.getD 1) ++ " " ++ p.uom.getD "Each"

/-- The body of the enrichment loop of `find_substitutes` for one ranked
substitute: `ok none` models `continue` (SKU absent from the catalog
fetch), `error` models a raised `KeyError`. -/
def enrichOne (item : SourceItem) (db_products : List (String × Product))
    (bullets_map : List (String × List String))
    (specs_map : List (String × List (String × String)))
    (sub : RawSub) : Except String (Option EnrichedSub) :=
  match getField "sku" sub.sku with
  | Except.error e => Except.error e
  | Except.ok sku =>
    match dictGet db_products sku with
    | none => Except.ok none
    | some product =>
      let our_unit_price := unitPriceOf product
      match getField "qty_needed" sub.qty_needed with
      | Except.error e => Except.error e
      | Except.ok qty_needed =>
        let their_total_spend := derivedTotalSpend item
        let our_total_spend : ℚ := (qty_needed : ℚ) * our_unit_price
        let savings : Option ℚ :=
          if hasPricing item then some (their_total_spend - our_total_spend)
          else none
        let savings_pct : Option ℚ :=
          if hasPricing item then
            some (if their_total_spend = 0 then 0
                  else pyRound2 ((their_total_spend - our_total_spend) /
                                  their_total_spend * 100))
          else none
        match getField "rank" sub.rank with
        | Except.error e => Except.error e
        | Except.ok rank =>
          match getField "reason" sub.reason with
          | Except.error e => Except.error e
          | Except.ok reason =>
            match getField "unit_type" sub.unit_type with
            | Except.error e => Except.error e
            | Except.ok unit_type =>
              match getField "comparison_notes" sub.comparison_notes with
              | Except.error e => Except.error e
              | Except.ok comparison_notes =>
                Except.ok (some
                  { rank := rank
                    reason := reason
                    unit_type := unit_type
                    qty_needed := qty_needed
                    comparison_notes := comparison_notes
                    sku := sku
                    product_name := product.name
                    brand_name := product.brand_name
                    candidate_uom := candidateUom product
                    our_unit_price := our_unit_price
                    our_total_spend := pyRound2 our_total_spend
                    their_unit_price :=
                      if hasPricing item then some item.unit_price else none
                    their_total_spend :=
                      if hasPricing item then some (pyRound2 their_total_spend)
                      else none
                    savings := savings.map pyRound2
                    savings_percentage := savings_pct
                    product_details := product
                    bullets := (dictGet bullets_map sku).getD []
                    specs := (dictGet specs_map sku).getD [] })

/-- The enrichment loop over the ranked substitutes, in response order;
an exception on any item aborts the whole loop. -/
def enrichList (item : SourceItem) (db_products : List (String × Product))
    (bullets_map : List (String × List String))
    (specs_map : List (String × List (String × String))) :
    List RawSub → Except String (List EnrichedSub)
  | [] => Except.ok []
  | sub :: rest =>
    match enrichOne item db_products bullets_map specs_map sub with
    | Except.error e => Except.error e
    | Except.ok none => enrichList item db_products bullets_map specs_map rest
    | Except.ok (some es) =>
      match enrichList item db_products bullets_map specs_map rest with
      | Except.error e => Except.error e
      | Except.ok tail => Except.ok (es :: tail)

/-- `[s["sku"] for s in gemini_result.get("substitutes", [])]`
(`rag_pipeline.py` line 114): raises on the first item missing `sku`. -/
def getSkus : List RawSub → Except String (List String)
  | [] => Except.ok []
  | sub :: rest =>
    match getField "sku" sub.sku with
    | Except.error e => Except.error e
    | Except.ok sku =>
      match getSkus rest with
      | Except.error e => Except.error e
      | Except.ok tail => Except.ok (sku :: tail)

/-- `{p["sku"]: p for p in ...}`: later bindings overwrite earlier ones. -/
def productDict (products : List Product) : List (String × Product) :=
  products.foldl (fun d p => dictSet d p.sku p) []

/-- Outcomes of the collaborators for one request: the cache-resolved
values (when the corresponding cache lookup hit) and the collaborators'
own outcomes (a raised exception or a returned value). -/
structure Env where
  searchCached : Option (List Candidate)
  searchResult : Except String (List Candidate)
  rankCached : Option GeminiResult
  rankResult : Except String GeminiResult
  dbFetch : List String → Except String (List Product)
  bulletsFetch : List String → List (String × List String)
  specsFetch : List String → List (String × List (String × String))

/-- Which external collaborators a request actually invoked. -/
inductive CallTag where
  | search
  | rank
  | db
deriving DecidableEq, Repr

/-- The empty-candidate short-circuit result payload. -/
def emptyResult (item : SourceItem) : ResultData :=
  { source_item := item
    candidates_evaluated := none
    message := some ("No candidate products found in '" ++
      item.supercategory ++ " > " ++ item.category ++ "'.")
    substitutes := []
    requests_remaining := none }

/-- The full result payload. -/
def fullResult (item : SourceItem) (nCandidates : Nat)
    (substitutes : List EnrichedSub) : ResultData :=
  { source_item := item
    candidates_evaluated := some nCandidates
    message := none
    substitutes := substitutes
    requests_remaining := none }

/-- `find_substitutes` from `rag_pipeline.py`, combined with the
exception wrapper of `main.py` that turns a raised exception into a
terminal error event: the list of emitted events, paired with the list
of collaborator calls made. -/
def find_substitutes (env : Env) (item : SourceItem) :
    List Event × List CallTag :=
  if item.supercategory = "" ∨ item.category = "" then
    ([Event.error "Both supercategory and category are required."], [])
  else
    let ev0 := [Event.status "Searching catalog..."]
    let searchStep : Except String (List Candidate) × List CallTag :=
      match env.searchCached with
      | some c => (Except.ok c, [])
      | none => (env.searchResult, [CallTag.search])
    match searchStep with
    | (Except.error e, calls) => (ev0 ++ [Event.error e], calls)
    | (Except.ok candidates, calls1) =>
      if candidates.isEmpty then
        (ev0 ++ [Event.result (emptyResult item)], calls1)
      else
        let ev1 := ev0 ++ [Event.status ("Found " ++
          toString candidates.length ++ " candidates — AI is ranking...")]
        let rankStep : Except String GeminiResult × List CallTag :=
          match env.rankCached with
          | some g => (Except.ok g, calls1)
          | none => (env.rankResult, calls1 ++ [CallTag.rank])
        match rankStep with
        | (Except.error e, calls) => (ev1 ++ [Event.error e], calls)
        | (Except.ok g, calls2) =>
          let ev2 := ev1 ++
            [Event.status "Ranking complete, fetching product details..."]
          match getSkus (g.substitutes.getD []) with
          | Except.error e => (ev2 ++ [Event.error e], calls2)
          | Except.ok substitute_skus =>
            match env.dbFetch substitute_skus with
            | Except.error e =>
                (ev2 ++ [Event.error e], calls2 ++ [CallTag.db])
            | Except.ok products =>
              let db_products := productDict products
              let bullets_map := env.bulletsFetch substitute_skus
              let specs_map := env.specsFetch substitute_skus
              match enrichList item db_products bullets_map specs_map
                  (g.substitutes.getD []) with
              | Except.error e =>
                  (ev2 ++ [Event.error e], calls2 ++ [CallTag.db])
              | Except.ok substitutes =>
                  (ev2 ++ [Event.result
                      (fullResult item candidates.length substitutes)],
                    calls2 ++ [CallTag.db])

/-- How `event_stream` in `main.py` forwards one event: a result event
gets `requests_remaining` set, every other event is forwarded as-is. -/
def forwardEvent (remaining : Nat) : Event → Event
  | Event.result d =>
      Event.result { d with requests_remaining := some remaining }
  | other => other

/-- The forwarding loop of `event_stream` in `main.py`: events are
forwarded to the caller in production order. -/
def event_stream (remaining : Nat) (events : List Event) : List Event :=
  events.map (forwardEvent remaining)

/-- The `POST /substitute` handler `get_substitutes` in `main.py` for one
client: quota check-and-increment first, then (only when admitted) the
pipeline stream. `none` as second component models the 429 rejection. -/
def get_substitutes (maxReq today : Nat) (entry : Option QuotaEntry)
    (item : SourceItem) (env : Env) :
    Option QuotaEntry × Option (List Event) :=
  let step := quotaStep maxReq today entry
  if step.1 then
    let remaining := maxReq - effCount today step.2
    (step.2, some (event_stream remaining (find_substitutes env item).1))
  else (step.2, none)

/-- A ranking-response item with every schema-required field present. -/
def wellFormed (sub : RawSub) : Bool :=
  sub.sku.isSome && sub.rank.isSome && sub.reason.isSome &&
  sub.unit_type.isSome && sub.qty_needed.isSome && sub.comparison_notes.isSome

/-- The substitutes of the terminal result event of a pipeline run, if
the run ended in a result event. -/
def finalSubs (run : List Event × List CallTag) : Option (List EnrichedSub) :=
  match run.1.getLast? with
  | some (Event.result d) => some d.substitutes
  | _ => none

/-- The reported, 2-decimal-rounded money fields of one enrichment
outcome: `(savings, their_total_spend, our_total_spend)`. -/
def reportedSpends (r : Except String (Option EnrichedSub)) :
    Option (Option ℚ × Option ℚ × ℚ) :=
  match r with
  | Except.ok (some es) => some (es.savings, es.their_total_spend, es.our_total_spend)
  | _ => none

/-- An environment whose collaborators all succeed with empty data;
used to evaluate the pipeline on concrete requests. -/
def envEmpty : Env :=
  { searchCached := none
    searchResult := Except.ok []
    rankCached := none
    rankResult := Except.ok { substitutes := none }
    dbFetch := fun _ => Except.ok []
    bulletsFetch := fun _ => []
    specsFetch := fun _ => [] }

/-- A request with a name but no category pair. -/
def itemNoCategory : SourceItem :=
  { name := "Steel Bolt", description := "", supercategory := "", category := "",
    quantity := 1, quantity_unit := "", unit_price := 0, total_price := 0 }

/-- A request whose user supplied `total_price = 2.006` dollars. -/
def itemC2 : SourceItem :=
  { name := "n", description := "", supercategory := "S", category := "C",
    quantity := 1, quantity_unit := "", unit_price := 0,
    total_price := 1003/500 }

/-- A catalog record priced at `1.004` dollars. -/
def prodC2 : Product :=
  { sku := "A", name := "Prod A", brand_name := none,
    customer_price := some (251/250), web_price := none,
    uom_qty := none, uom := none }

/-- A well-formed ranking-response item for SKU `A`, one unit needed. -/
def subC2 : RawSub :=
  { sku := some "A", rank := some 1, reason := some "r",
    unit_type := some "DIVISIBLE", qty_needed := some 1,
    comparison_notes := some "c" }

/-- The enrichment of `subC2` against `prodC2` for `itemC2`, spelled out:
`our_total_spend = round(1 * 1.004, 2) = 1.00`,
`their_total_spend = round(2.006, 2) = 2.01`,
`savings = round(2.006 - 1.004, 2) = 1.00`,
`savings_percentage = round(1.002 / 2.006 * 100, 2) = 49.95`. -/
def esC2 : EnrichedSub :=
  { rank := 1, reason := "r", unit_type := "DIVISIBLE", qty_needed := 1,
    comparison_notes := "c", sku := "A", product_name := "Prod A",
    brand_name := none, candidate_uom := "1 Each",
    our_unit_price := 251/250, our_total_spend := 1,
    their_unit_price := some 0, their_total_spend := some (201/100),
    savings := some 1, savings_percentage := some (999/20),
    product_details := prodC2, bullets := [], specs := [] }

/-- A request with neither price supplied. -/
def itemNoPrice : SourceItem :=
  { name := "n", description := "", supercategory := "S", category := "C",
    quantity := 4, quantity_unit := "", unit_price := 0, total_price := 0 }

/-- A request with only a unit price supplied. -/
def itemUnitPrice : SourceItem :=
  { name := "n", description := "", supercategory := "S", category := "C",
    quantity := 3, quantity_unit := "", unit_price := 2, total_price := 0 }

/-- A valid request used to exercise the ranking-response handling. -/
def itemC1 : SourceItem :=
  { name := "Folder", description := "", supercategory := "Office",
    category := "Folders", quantity := 10, quantity_unit := "ea",
    unit_price := 0, total_price := 50 }

/-- A retrieval candidate for the pipeline runs below. -/
def candC1 : Candidate :=
  { sku := "A", score := 1, document := "doc" }

/-- A ranking-response item with a non-positive required-quantity
multiplier (`qty_needed = 0`) and an out-of-range rank (7 of 1..2). -/
def subC1A : RawSub :=
  { sku := some "A", rank := some 7, reason := some "r1",
    unit_type := some "ABSOLUTE", qty_needed := some 0,
    comparison_notes := some "c1" }

/-- A second response item duplicating rank 7, with `qty_needed = -1`. -/
def subC1B : RawSub :=
  { sku := some "B", rank := some 7, reason := some "r2",
    unit_type := some "ABSOLUTE", qty_needed := some (-1),
    comparison_notes := some "c2" }

/-- Catalog record for SKU `A`. -/
def prodC1A : Product :=
  { sku := "A", name := "Folder A", brand_name := some "BrandA",
    customer_price := some 2, web_price := none,
    uom_qty := some 1, uom := some "Each" }

/-- Catalog record for SKU `B`. -/
def prodC1B : Product :=
  { sku := "B", name := "Folder B", brand_name := some "BrandB",
    customer_price := some 3, web_price := none,
    uom_qty := some 1, uom := some "Each" }

/-- Environment in which the ranking collaborator answers with the two
malformed items `subC1A`, `subC1B`, both SKUs present in the catalog. -/
def envC1 : Env :=
  { searchCached := some [candC1]
    searchResult := Except.ok [candC1]
    rankCached := some { substitutes := some [subC1A, subC1B] }
    rankResult := Except.ok { substitutes := some [subC1A, subC1B] }
    dbFetch := fun _ => Except.ok [prodC1A, prodC1B]
    bulletsFetch := fun _ => []
    specsFetch := fun _ => [] }

/-- Two well-formed ranking-response items for the enrichment-order run:
SKU `A` then SKU `B`, ranks 1 and 2. -/
def subC9A : RawSub :=
  { sku := some "A", rank := some 1, reason := some "r1",
    unit_type := some "DIVISIBLE", qty_needed := some 2,
    comparison_notes := some "c1" }

/-- Second ranked substitute, SKU `B` (absent from the catalog fetch). -/
def subC9B : RawSub :=
  { sku := some "B", rank := some 2, reason := some "r2",
    unit_type := some "DIVISIBLE", qty_needed := some 1,
    comparison_notes := some "c2" }

/-- Environment in which ranking returns `[subC9A, subC9B]` but the
catalog batch fetch only knows SKU `A`. -/
def envC9 : Env :=
  { searchCached := some [candC1]
    searchResult := Except.ok [candC1]
    rankCached := some { substitutes := some [subC9A, subC9B] }
    rankResult := Except.ok { substitutes := some [subC9A, subC9B] }
    dbFetch := fun _ => Except.ok [prodC1A]
    bulletsFetch := fun _ => []
    specsFetch := fun _ => [] }

/-- A retrieval collaborator returning one hit whose metadata has no
usable `sku` (it defaults to `""`). -/
def collabC8 : Nat → List QResult :=
  fun _ => [{ metadata_sku := some "", score := 1,
              slim_doc := none, document := none }]

/-- A retrieval collaborator returning hits for SKUs `B` and `X`. -/
def collabW : Nat → List QResult :=
  fun _ => [{ metadata_sku := some "B", score := 1,
              slim_doc := some "docB", document := none },
            { metadata_sku := some "X", score := 2,
              slim_doc := some "docX", document := none }]

/-- Characterization of a successful enrichment of one ranked substitute:
how every derived pricing field of the produced `EnrichedSub` is computed
from the inputs. -/
lemma enrichOne_fields (item : SourceItem) (db : List (String × Product))
    (bm : List (String × List String))
    (sm : List (String × List (String × String)))
    (sub : RawSub) (es : EnrichedSub)
    (h : enrichOne item db bm sm sub = Except.ok (some es)) :
    sub.sku = some es.sku ∧
    sub.qty_needed = some es.qty_needed ∧
    (∃ p, dictGet db es.sku = some p ∧ es.our_unit_price = unitPriceOf p) ∧
    es.our_total_spend = pyRound2 ((es.qty_needed : ℚ) * es.our_unit_price) ∧
    es.their_total_spend =
      (if hasPricing item then some (pyRound2 (derivedTotalSpend item))
       else none) ∧
    es.savings =
      (if hasPricing item then
        some (pyRound2 (derivedTotalSpend item -
          (es.qty_needed : ℚ) * es.our_unit_price))
       else none) ∧
    es.savings_percentage =
      (if hasPricing item then
        some (if derivedTotalSpend item = 0 then 0
          else pyRound2 ((derivedTotalSpend item -
            (es.qty_needed : ℚ) * es.our_unit_price) /
            derivedTotalSpend item * 100))
       else none) := by
  cases hsku : sub.sku with
  | none => simp [enrichOne, getField, hsku] at h
  | some sku =>
    cases hdb : dictGet db sku with
    | none => simp [enrichOne, getField, hsku, hdb] at h
    | some p =>
      cases hq : sub.qty_needed with
      | none => simp [enrichOne, getField, hsku, hdb, hq] at h
      | some q =>
        cases hr : sub.rank with
        | none => simp [enrichOne, getField, hsku, hdb, hq, hr] at h
        | some rank =>
          cases hre : sub.reason with
          | none => simp [enrichOne, getField, hsku, hdb, hq, hr, hre] at h
          | some reason =>
            cases hu : sub.unit_type with
            | none =>
              simp [enrichOne, getField, hsku, hdb, hq, hr, hre, hu] at h
            | some ut =>
              cases hc : sub.comparison_notes with
              | none =>
                simp [enrichOne, getField, hsku, hdb, hq, hr, hre, hu, hc] at h
              | some notes =>
                simp only [enrichOne, getField, hsku, hdb, hq, hr, hre, hu, hc,
                  Except.ok.injEq, Option.some.injEq] at h
                subst h
                by_cases hp : hasPricing item = true
                · simp [hsku, hq, hp]
                  exact ⟨p, hdb, rfl⟩
                · simp only [Bool.not_eq_true] at hp
                  simp [hsku, hq, hp]
                  exact ⟨p, hdb, rfl⟩

/-- C5: with TTL = 0 every cache lookup reports absent and every write is
a no-op; with TTL > 0 a lookup returns the stored payload iff an entry
exists whose age `now - ts` is strictly below the TTL, and a lookup on an
entry at or past the TTL reports absent and evicts that entry. -/
theorem claim_C5_cache_ttl {α : Type} (ttl now : ℚ)
    (store : List (String × ℚ × α)) (key : String) :
    (ttl = 0 →
      cache_get ttl now store key = (none, store) ∧
      ∀ v : α, cache_set ttl now store key v = store) ∧
    (0 < ttl →
      (∀ v : α, (cache_get ttl now store key).1 = some v ↔
        ∃ ts, dictGet store key = some (ts, v) ∧ now - ts < ttl) ∧
      (∀ (ts : ℚ) (v : α), dictGet store key = some (ts, v) →
        ttl ≤ now - ts →
        cache_get ttl now store key = (none, dictPop store key))) := by
  constructor
  · intro h
    subst h
    refine ⟨by simp [cache_get], fun v => by simp [cache_set]⟩
  · intro h
    have hns : ¬ ttl ≤ 0 := not_le.mpr h
    constructor
    · intro v
      rcases hdg : dictGet store key with _ | ⟨ts, p⟩
      · simp [cache_get, hns, hdg]
      · by_cases hlt : now - ts < ttl
        · simp only [cache_get, hns, hdg, hlt, if_true, if_false, ite_true,
            ite_false, Option.some.injEq, Prod.mk.injEq]
          constructor
          · intro hv
            exact ⟨ts, ⟨rfl, hv⟩, hlt⟩
          · rintro ⟨ts2, ⟨h1, h2⟩, _⟩
            exact h2
        · simp only [cache_get, hns, hdg, hlt, if_true, if_false, ite_true,
            ite_false, Option.some.injEq, Prod.mk.injEq]
          constructor
          · intro hv
            simp at hv
          · rintro ⟨ts2, ⟨h1, h2⟩, hlt2⟩
            subst h1
            exact absurd hlt2 hlt
    · intro ts v hget hage
      simp [cache_get, hns, hget, not_lt.mpr hage]

/-- C5 witness: a concrete hit inside the TTL window, and a disabled
(TTL = 0) cache leaving the store untouched and reporting absent. -/
theorem claim_C5_cache_ttl_witness :
    (cache_get 10 5 [("k", ((0 : ℚ), (42 : Nat)))] "k").1 = some 42 ∧
    cache_get 0 5 [("k", ((0 : ℚ), (42 : Nat)))] "k" =
      (none, [("k", ((0 : ℚ), (42 : Nat)))]) := by
  constructor
  · exact (((claim_C5_cache_ttl 10 5 [("k", (0, 42))] "k").2 (by norm_num)).1
      42).mpr ⟨0, by with_unfolding_all decide, by norm_num⟩
  · exact ((claim_C5_cache_ttl 0 5 [("k", (0, 42))] "k").1 rfl).1

/-- C3: the user's total spend is derived with the precedence
total price > 0 as-is, else unit price > 0 times quantity, else pricing
is unavailable and the savings fields of every produced substitute are
absent (`none`), not zero; and when pricing is available with a derived
total spend of exactly zero, the savings percentage is 0. -/
theorem claim_C3_pricing_precedence (item : SourceItem) :
    (0 < item.total_price → derivedTotalSpend item = item.total_price) ∧
    (item.total_price ≤ 0 → 0 < item.unit_price →
      derivedTotalSpend item = item.unit_price * item.quantity) ∧
    (item.total_price ≤ 0 → item.unit_price ≤ 0 →
      hasPricing item = false ∧
      ∀ db bm sm sub es, enrichOne item db bm sm sub = Except.ok (some es) →
        es.savings = none ∧ es.savings_percentage = none) ∧
    (hasPricing item = true → derivedTotalSpend item = 0 →
      ∀ db bm sm sub es, enrichOne item db bm sm sub = Except.ok (some es) →
        es.savings_percentage = some 0) := by
  refine ⟨?_, ?_, ?_, ?_⟩
  · intro htp
    unfold derivedTotalSpend
    rw [if_neg]
    rintro ⟨h1, -⟩
    exact absurd htp (not_lt.mpr h1)
  · intro htp hup
    unfold derivedTotalSpend
    rw [if_pos ⟨htp, hup⟩]
  · intro htp hup
    have hd : derivedTotalSpend item = item.total_price := by
      unfold derivedTotalSpend
      rw [if_neg]
      rintro ⟨-, h2⟩
      exact absurd h2 (not_lt.mpr hup)
    have hhp : hasPricing item = false := by
      simp only [hasPricing, decide_eq_false_iff_not, not_or, not_lt]
      exact ⟨hd ▸ htp, hup⟩
    refine ⟨hhp, ?_⟩
    intro db bm sm sub es hok
    obtain ⟨-, -, -, -, -, hs, hsp⟩ := enrichOne_fields item db bm sm sub es hok
    rw [hs, hsp]
    simp [hhp]
  · intro hhp hzero db bm sm sub es hok
    obtain ⟨-, -, -, -, -, -, hsp⟩ := enrichOne_fields item db bm sm sub es hok
    rw [hsp]
    simp [hhp, hzero]

/-- C3 witness: with no price supplied pricing is unavailable; with only
a unit price supplied the derived total spend is `unit price × quantity`. -/
theorem claim_C3_pricing_precedence_witness :
    hasPricing itemNoPrice = false ∧ derivedTotalSpend itemUnitPrice = 6 := by
  constructor
  · exact ((claim_C3_pricing_precedence itemNoPrice).2.2.1 le_rfl le_rfl).1
  · exact ((claim_C3_pricing_precedence itemUnitPrice).2.1 le_rfl
      (by norm_num [itemUnitPrice])).trans (by norm_num [itemUnitPrice])

/-- C2 (amended): the reported `our_total_spend` is
`round(qty_needed * our_unit_price, 2)` as claimed, but the reported
`savings` is the 2-decimal rounding of the difference of the un-rounded
spends, `round(raw_their_total_spend - raw_our_total_spend, 2)` — not the
difference of the two reported (already rounded) fields. -/
theorem claim_C2_pricing_law (item : SourceItem) (db : List (String × Product))
    (bm : List (String × List String))
    (sm : List (String × List (String × String)))
    (sub : RawSub) (es : EnrichedSub)
    (h : enrichOne item db bm sm sub = Except.ok (some es))
    (hp : hasPricing item = true) :
    es.our_total_spend = pyRound2 ((es.qty_needed : ℚ) * es.our_unit_price) ∧
    es.their_total_spend = some (pyRound2 (derivedTotalSpend item)) ∧
    es.savings = some (pyRound2 (derivedTotalSpend item -
      (es.qty_needed : ℚ) * es.our_unit_price)) := by
  obtain ⟨-, -, -, hots, htts, hs, -⟩ := enrichOne_fields item db bm sm sub es h
  rw [hots, htts, hs]
  simp [hp]

/-- C2 witness: the amended pricing law at the concrete enrichment of
`subC2` against `prodC2` for `itemC2`. -/
theorem claim_C2_pricing_law_witness :
    esC2.our_total_spend = pyRound2 ((esC2.qty_needed : ℚ) * esC2.our_unit_price) ∧
    esC2.their_total_spend = some (pyRound2 (derivedTotalSpend itemC2)) ∧
    esC2.savings = some (pyRound2 (derivedTotalSpend itemC2 -
      (esC2.qty_needed : ℚ) * esC2.our_unit_price)) :=
  claim_C2_pricing_law itemC2 [("A", prodC2)] [] [] subC2 esC2
    (by with_unfolding_all rfl) (by with_unfolding_all decide)

/-- C2 counterexample: for `itemC2` (their total 2.006) and `prodC2`
(unit price 1.004, one unit needed) the reported fields are
`savings = 1.00`, `their_total_spend = 2.01`, `our_total_spend = 1.00`,
and `1.00 ≠ 2.01 - 1.00`: the reported savings is not exactly the
difference of the two reported, 2-decimal-rounded spend fields. -/
theorem claim_C2_counterexample :
    reportedSpends (enrichOne itemC2 [("A", prodC2)] [] [] subC2) =
      some (some 1, some (201/100), 1) ∧
    (1 : ℚ) ≠ 201/100 - 1 := by
  constructor
  · with_unfolding_all decide
  · norm_num

/-- C1 (code-bug evidence): a ranking response whose items have a
non-positive `qty_needed` (0 and -1) and duplicate, out-of-range ranks
(both 7, for a 2-item response) flows through the pipeline into a
terminal result event unchanged — no error is surfaced for the request. -/
theorem claim_C1_malformed_response_reaches_result :
    (finalSubs (find_substitutes envC1 itemC1)).map
      (fun l => l.map (fun es => (es.sku, es.rank, es.qty_needed))) =
      some [("A", 7, 0), ("B", 7, -1)] := by
  with_unfolding_all rfl

/-- C7 (amended): a request missing supercategory or category is rejected
before any retrieval, ranking or catalog collaborator call is made (the
call list is empty), but the failure is surfaced as the sole — terminal
error — event of the request's event stream, not outside the streaming
phase. -/
theorem claim_C7_validation_before_any_call (env : Env) (item : SourceItem)
    (h : item.supercategory = "" ∨ item.category = "") :
    find_substitutes env item =
      ([Event.error "Both supercategory and category are required."], []) := by
  unfold find_substitutes
  rw [if_pos h]

/-- C7 witness: the amended behaviour at a concrete category-less request. -/
theorem claim_C7_validation_before_any_call_witness :
    find_substitutes envEmpty itemNoCategory =
      ([Event.error "Both supercategory and category are required."], []) :=
  claim_C7_validation_before_any_call envEmpty itemNoCategory (Or.inl rfl)

/-- C7 counterexample: the validation failure for a category-less request
IS delivered as an event of the request's event stream, contradicting the
claim that validation failures are never delivered as stream events. -/
theorem claim_C7_counterexample :
    Event.error "Both supercategory and category are required." ∈
      event_stream 5 (find_substitutes envEmpty itemNoCategory).1 := by
  with_unfolding_all decide

/-- Mapping a filterMap is an order-preserving selection: its image is a
sublist of the image of the original list. -/
lemma filterMap_map_sublist {α β γ : Type} (l : List α) (f : α → Option β)
    (g : β → γ) (h : α → γ) (hfg : ∀ x y, f x = some y → g y = h x) :
    ((l.filterMap f).map g).Sublist (l.map h) := by
  induction l with
  | nil => simp
  | cons x xs ih =>
    cases hfx : f x with
    | none =>
      simp only [List.filterMap_cons, hfx, List.map_cons]
      exact ih.cons _
    | some y =>
      simp only [List.filterMap_cons, hfx, List.map_cons]
      rw [hfg x y hfx]
      exact ih.cons₂ _

/-- C8 (amended): the retrieval orchestrator queries the collaborator at
`limit + 1` (its output depends only on that call), returns at most
`limit` candidates in collaborator order (the returned identifiers form a
sublist of the collaborator's identifiers), and — when the excluded
identifier is non-empty — no returned candidate carries it. When
`excludeId = ""` the exclusion filter is skipped entirely. -/
theorem claim_C8_retrieval_orchestrator (collaborator : Nat → List QResult)
    (exclude_sku : String) (n_results : Nat) :
    (search_similar_products_call collaborator exclude_sku n_results).length
      ≤ n_results ∧
    (∀ c2 : Nat → List QResult,
      c2 (n_results + 1) = collaborator (n_results + 1) →
      search_similar_products_call c2 exclude_sku n_results =
        search_similar_products_call collaborator exclude_sku n_results) ∧
    ((search_similar_products_call collaborator exclude_sku n_results).map
        Candidate.sku).Sublist
      ((collaborator (n_results + 1)).map (fun r => r.metadata_sku.getD "")) ∧
    (exclude_sku ≠ "" →
      ∀ c ∈ search_similar_products_call collaborator exclude_sku n_results,
        c.sku ≠ exclude_sku) := by
  refine ⟨?_, ?_, ?_, ?_⟩
  · simp only [search_similar_products_call, search_similar_products]
    exact List.length_take_le n_results _
  · intro c2 hc
    unfold search_similar_products_call
    rw [hc]
  · simp only [search_similar_products_call, search_similar_products]
    refine List.Sublist.trans ?_
      (filterMap_map_sublist (collaborator (n_results + 1))
        (fun r =>
          if exclude_sku ≠ "" ∧ r.metadata_sku.getD "" = exclude_sku then none
          else some { sku := r.metadata_sku.getD "", score := r.score,
                      document := (r.slim_doc.getD (sOr r.document "")) })
        Candidate.sku (fun (r : QResult) => r.metadata_sku.getD "") ?_)
    · simpa using ((List.take_sublist n_results _).map Candidate.sku)
    · intro r c hr
      by_cases hcond : exclude_sku ≠ "" ∧ r.metadata_sku.getD "" = exclude_sku
      · simp [hcond] at hr
      · simp only [if_neg hcond, Option.some.injEq] at hr
        rw [← hr]
  · intro hex c hc
    have hc2 : c ∈ (collaborator (n_results + 1)).filterMap (fun r =>
        if exclude_sku ≠ "" ∧ r.metadata_sku.getD "" = exclude_sku then none
        else some { sku := r.metadata_sku.getD "", score := r.score,
                    document := (r.slim_doc.getD (sOr r.document "")) }) := by
      have hmem := hc
      simp only [search_similar_products_call, search_similar_products] at hmem
      exact List.mem_of_mem_take hmem
    obtain ⟨r, -, hfr⟩ := List.mem_filterMap.mp hc2
    by_cases hcond : exclude_sku ≠ "" ∧ r.metadata_sku.getD "" = exclude_sku
    · simp [hcond] at hfr
    · simp only [if_neg hcond, Option.some.injEq] at hfr
      rw [← hfr]
      intro habs
      exact hcond ⟨hex, habs⟩

/-- C8 witness: two hits, SKU `X` excluded — one candidate returned,
without SKU `X`. -/
theorem claim_C8_retrieval_orchestrator_witness :
    (search_similar_products_call collabW "X" 1).length ≤ 1 ∧
    ({ sku := "B", score := 1, document := "docB" } : Candidate).sku ≠ "X" :=
  ⟨(claim_C8_retrieval_orchestrator collabW "X" 1).1,
   (claim_C8_retrieval_orchestrator collabW "X" 1).2.2.2 (by decide)
     { sku := "B", score := 1, document := "docB" }
     (by with_unfolding_all decide)⟩

/-- C8 counterexample: with `excludeId = ""` and a hit whose metadata has
no usable SKU, the returned list DOES contain a candidate whose
identifier equals the excluded identifier — the exclusion clause of the
claim fails for the empty excluded identifier. -/
theorem claim_C8_counterexample :
    ¬ (∀ c ∈ search_similar_products_call collabC8 "" 1, c.sku ≠ "") := by
  with_unfolding_all decide

/-- Forwarding an event through the stream bridge does not change whether
it is terminal. -/
lemma forwardEvent_isTerminal (r : Nat) (e : Event) :
    (forwardEvent r e).isTerminal = e.isTerminal := by
  cases e <;> rfl

/-- Every pipeline run emits a non-empty event list whose last event is
terminal (a result or an error) and whose earlier events are all
non-terminal status events. -/
lemma find_substitutes_shape (env : Env) (item : SourceItem) :
    ∃ pre t, (find_substitutes env item).1 = pre ++ [t] ∧
      t.isTerminal = true ∧ ∀ e ∈ pre, e.isTerminal = false := by
  unfold find_substitutes
  repeat' (first | split | dsimp only)
  all_goals first
    | exact ⟨[], _, rfl, rfl, by simp⟩
    | exact ⟨_, _, rfl, rfl, by simp [Event.isTerminal]⟩

/-- C4: for every request stream (the pipeline's events as forwarded by
the stream bridge), exactly one terminal event is emitted, it is the last
element of the stream, and nothing follows it — every earlier event is a
non-terminal status event. -/
theorem claim_C4_single_terminal_event (env : Env) (item : SourceItem)
    (remaining : Nat) :
    ∃ pre t,
      event_stream remaining (find_substitutes env item).1 = pre ++ [t] ∧
      t.isTerminal = true ∧ ∀ e ∈ pre, e.isTerminal = false := by
  obtain ⟨pre, t, heq, ht, hpre⟩ := find_substitutes_shape env item
  refine ⟨event_stream remaining pre, forwardEvent remaining t, ?_, ?_, ?_⟩
  · rw [heq]
    unfold event_stream
    rw [List.map_append]
    rfl
  · rw [forwardEvent_isTerminal, ht]
  · intro e he
    unfold event_stream at he
    obtain ⟨e0, he0, rfl⟩ := List.mem_map.mp he
    rw [forwardEvent_isTerminal]
    exact hpre e0 he0

/-- Within the configured maximum, `k` same-day requests from a fresh
client leave the stored entry at `(today, k)`. -/
lemma quotaRun_le (m d : Nat) :
    ∀ k, k ≤ m → quotaRun m d k = if k = 0 then none else some ⟨d, k⟩ := by
  intro k
  induction k with
  | zero => intro _; simp [quotaRun]
  | succ n ih =>
    intro hk
    have hlt : n < m := Nat.lt_of_succ_le hk
    rw [quotaRun, ih (Nat.le_of_lt hlt)]
    by_cases h0 : n = 0
    · subst h0
      simp [quotaStep, effCount, Nat.not_le.mpr hlt]
    · simp [h0, quotaStep, effCount, Nat.not_le.mpr hlt]

/-- C6: with configured maximum `m > 0`, each of the first `m` same-day
requests of one client is admitted and increments the stored count, the
`(m+1)`-th same-day request is rejected leaving the record unchanged, the
first request of a later calendar day is admitted regardless of the prior
count (resetting the counter), the stored count never exceeds `m`, and
within one day the stored count is non-decreasing under each request. -/
theorem claim_C6_quota_law (m d d2 : Nat) (hm : 0 < m) (hd : d < d2) :
    (∀ k, k < m → (quotaStep m d (quotaRun m d k)).1 = true ∧
      quotaRun m d (k + 1) = some ⟨d, k + 1⟩) ∧
    ((quotaStep m d (quotaRun m d m)).1 = false ∧
      quotaRun m d (m + 1) = quotaRun m d m) ∧
    ((quotaStep m d2 (quotaRun m d m)).1 = true ∧
      (quotaStep m d2 (quotaRun m d m)).2 = some ⟨d2, 1⟩) ∧
    (∀ entry, (∀ e, entry = some e → e.count ≤ m) →
      ∀ e2, (quotaStep m d entry).2 = some e2 → e2.count ≤ m) ∧
    (∀ e e2, (quotaStep m d (some e)).2 = some e2 → e2.date = e.date →
      e.count ≤ e2.count) := by
  have hrm : quotaRun m d m = some ⟨d, m⟩ := by
    rw [quotaRun_le m d m le_rfl, if_neg (Nat.pos_iff_ne_zero.mp hm)]
  refine ⟨?_, ?_, ?_, ?_, ?_⟩
  · intro k hk
    constructor
    · rw [quotaRun_le m d k (Nat.le_of_lt hk)]
      by_cases h0 : k = 0
      · subst h0
        simp [quotaStep, effCount, Nat.not_le.mpr hk]
      · simp [h0, quotaStep, effCount, Nat.not_le.mpr hk]
    · rw [quotaRun_le m d (k + 1) (Nat.succ_le_of_lt hk)]
      simp
  · constructor
    · rw [hrm]
      simp [quotaStep, effCount]
    · rw [quotaRun, hrm]
      simp [quotaStep, effCount]
  · rw [hrm]
    have hne : ¬ d = d2 := Nat.ne_of_lt hd
    constructor
    · simp [quotaStep, effCount, hne, Nat.not_le.mpr hm]
    · simp [quotaStep, effCount, hne, Nat.not_le.mpr hm]
  · intro entry hinv e2 hstep
    unfold quotaStep at hstep
    by_cases hle : m ≤ effCount d entry
    · simp only [hle, if_pos] at hstep
      exact hinv e2 hstep
    · simp only [hle, if_neg, not_false_iff, Option.some.injEq] at hstep
      rw [← hstep]
      exact Nat.succ_le_of_lt (Nat.not_le.mp hle)
  · intro e e2 hstep hdate
    unfold quotaStep at hstep
    by_cases hle : m ≤ effCount d (some e)
    · simp only [hle, if_pos, Option.some.injEq] at hstep
      rw [← hstep]
    · simp only [hle, if_neg, not_false_iff, Option.some.injEq] at hstep
      by_cases hed : e.date = d
      · rw [← hstep]
        simp [effCount, hed]
      · rw [← hstep] at hdate
        simp at hdate
        exact absurd (hdate.symm) hed

/-- C6 witness: with maximum 2, two same-day requests are admitted
leaving the count at 2, the third same-day request is rejected, and the
first request of the next day is admitted. -/
theorem claim_C6_quota_law_witness :
    (quotaStep 2 0 (quotaRun 2 0 2)).1 = false ∧
    (quotaStep 2 1 (quotaRun 2 0 2)).1 = true ∧
    quotaRun 2 0 2 = some ⟨0, 2⟩ :=
  ⟨(claim_C6_quota_law 2 0 1 (by decide) (by decide)).2.1.1,
   (claim_C6_quota_law 2 0 1 (by decide) (by decide)).2.2.1.1,
   ((claim_C6_quota_law 2 0 1 (by decide) (by decide)).1 1 (by decide)).2⟩

/-- When every response item carries a `sku`, the SKU list comprehension
succeeds and returns the SKUs in response order. -/
lemma getSkus_wf : ∀ subs : List RawSub, (∀ sub ∈ subs, sub.sku.isSome) →
    getSkus subs = Except.ok (subs.map (fun s => s.sku.getD "")) := by
  intro subs
  induction subs with
  | nil => intro _; rfl
  | cons x xs ih =>
    intro h
    obtain ⟨s, hs⟩ := Option.isSome_iff_exists.mp (h x (List.mem_cons_self x xs))
    rw [getSkus, ih (fun sub hsub => h sub (List.mem_cons_of_mem x hsub))]
    simp [getField, hs]

/-- Enrichment of a list of well-formed ranked substitutes never raises,
and the SKUs of its output are exactly the response SKUs present in the
catalog dict, in response order. -/
lemma enrichList_wf (item : SourceItem) (db : List (String × Product))
    (bm : List (String × List String))
    (sm : List (String × List (String × String))) :
    ∀ subs : List RawSub, (∀ sub ∈ subs, wellFormed sub = true) →
    ∃ es, enrichList item db bm sm subs = Except.ok es ∧
      es.map EnrichedSub.sku = (subs.map (fun s => s.sku.getD "")).filter
        (fun s => (dictGet db s).isSome) := by
  intro subs
  induction subs with
  | nil => intro _; exact ⟨[], rfl, rfl⟩
  | cons x xs ih =>
    intro h
    obtain ⟨esxs, hxs, hmap⟩ := ih (fun s hs => h s (List.mem_cons_of_mem x hs))
    have hwf := h x (List.mem_cons_self x xs)
    simp only [wellFormed, Bool.and_eq_true, Option.isSome_iff_exists] at hwf
    obtain ⟨⟨⟨⟨⟨⟨sku, hsku⟩, rank, hrank⟩, reason, hreason⟩, ut, hut⟩,
      qty, hq⟩, notes, hn⟩ := hwf
    cases hdb : dictGet db sku with
    | none =>
      refine ⟨esxs, ?_, ?_⟩
      · simp only [enrichList, enrichOne, getField, hsku, hdb]
        exact hxs
      · simp [hsku, hdb, hmap]
    | some p =>
      rcases hone : enrichOne item db bm sm x with e | v
      · exfalso
        simp [enrichOne, getField, hsku, hq, hrank, hreason, hut, hn, hdb]
          at hone
      · rcases v with _ | e1
        · exfalso
          simp [enrichOne, getField, hsku, hq, hrank, hreason, hut, hn, hdb]
            at hone
        · have hske : e1.sku = sku := by
            simp only [enrichOne, getField, hsku, hq, hrank, hreason, hut, hn,
              hdb, Except.ok.injEq, Option.some.injEq] at hone
            rw [← hone]
          refine ⟨e1 :: esxs, ?_, ?_⟩
          · simp only [enrichList, hone, hxs]
          · simp [hsku, hdb, hmap, hske]

/-- C9: for a request reaching the enrichment stage (valid categories,
candidates found, well-formed ranking response, catalog fetch succeeds),
the terminal event is a result — never an error — whose substitutes are
exactly the ranking response's substitutes whose SKU is present in the
catalog batch fetch, in the ranking response's order; a ranked substitute
with no catalog record is silently dropped. -/
theorem claim_C9_rank_order_preserved (env : Env) (item : SourceItem)
    (cands : List Candidate) (subs : List RawSub) (products : List Product)
    (hsc : ¬ (item.supercategory = "" ∨ item.category = ""))
    (hcache : env.searchCached = some cands)
    (hcands : cands ≠ [])
    (hrank : env.rankCached = some { substitutes := some subs })
    (hwf : ∀ sub ∈ subs, wellFormed sub = true)
    (hdb : env.dbFetch (subs.map (fun s => s.sku.getD "")) =
      Except.ok products) :
    ((finalSubs (find_substitutes env item)).map
        (fun l => l.map EnrichedSub.sku)) =
      some ((subs.map (fun s => s.sku.getD "")).filter
        (fun s => (dictGet (productDict products) s).isSome)) ∧
    ∀ e ∈ (find_substitutes env item).1, e.isTerminal = true →
      ∃ d, e = Event.result d := by
  have hwfs : ∀ sub ∈ subs, sub.sku.isSome := by
    intro s hs
    have hw := hwf s hs
    simp only [wellFormed, Bool.and_eq_true] at hw
    exact hw.1.1.1.1.1
  have hskus := getSkus_wf subs hwfs
  obtain ⟨es, hes, hmap⟩ := enrichList_wf item (productDict products)
    (env.bulletsFetch (subs.map (fun s => s.sku.getD "")))
    (env.specsFetch (subs.map (fun s => s.sku.getD ""))) subs hwf
  have hne : cands.isEmpty = false := by
    cases cands with
    | nil => exact absurd rfl hcands
    | cons a l => rfl
  have hrun : find_substitutes env item =
      ([Event.status "Searching catalog...",
        Event.status ("Found " ++ toString cands.length ++
          " candidates — AI is ranking..."),
        Event.status "Ranking complete, fetching product details...",
        Event.result (fullResult item cands.length es)], [CallTag.db]) := by
    unfold find_substitutes
    rw [if_neg hsc]
    simp only [hcache, hrank, hne]
    simp [hskus, hdb, hes]
  constructor
  · rw [hrun]
    simp only [finalSubs, fullResult]
    simp [hmap]
  · intro e he ht
    rw [hrun] at he
    simp only [List.mem_cons, List.not_mem_nil, or_false] at he
    rcases he with rfl | rfl | rfl | rfl
    · exact absurd ht (by simp [Event.isTerminal])
    · exact absurd ht (by simp [Event.isTerminal])
    · exact absurd ht (by simp [Event.isTerminal])
    · exact ⟨_, rfl⟩

/-- C9 witness: ranking returns SKUs `A` then `B`, the catalog fetch only
knows `A` — the final list is exactly `[A]`, in order, with no error. -/
theorem claim_C9_rank_order_preserved_witness :
    ((finalSubs (find_substitutes envC9 itemC1)).map
        (fun l => l.map EnrichedSub.sku)) = some ["A"] :=
  (claim_C9_rank_order_preserved envC9 itemC1 [candC1] [subC9A, subC9B]
    [prodC1A] (by decide) rfl (by decide) rfl (by decide) rfl).1.trans
    (by with_unfolding_all rfl)

/-- C10: an admitted request increments the stored daily counter by
exactly one (to `effCount + 1`) before the pipeline stream is produced,
and the quota-state update is identical for every request body and every
collaborator behaviour — in particular for requests that fail category
validation or end in a stream error event. -/
theorem claim_C10_quota_consumed_first (maxReq today : Nat)
    (entry : Option QuotaEntry) (item : SourceItem) (env : Env)
    (h : (quotaStep maxReq today entry).1 = true) :
    (get_substitutes maxReq today entry item env).1 =
      some ⟨today, effCount today entry + 1⟩ ∧
    (get_substitutes maxReq today entry item env).2 =
      some (event_stream (maxReq - (effCount today entry + 1))
        (find_substitutes env item).1) ∧
    ∀ (item2 : SourceItem) (env2 : Env),
      (get_substitutes maxReq today entry item2 env2).1 =
      (get_substitutes maxReq today entry item env).1 := by
  have hstep : quotaStep maxReq today entry =
      (true, some ⟨today, effCount today entry + 1⟩) := by
    unfold quotaStep at h ⊢
    by_cases hle : maxReq ≤ effCount today entry
    · simp [hle] at h
    · simp [hle]
  refine ⟨?_, ?_, ?_⟩
  · simp [get_substitutes, hstep]
  · simp [get_substitutes, hstep, effCount]
  · intro item2 env2
    simp [get_substitutes, hstep]

/-- C10 witness: a request that fails category validation (and whose
stream is a single error event) still consumes one unit of quota. -/
theorem claim_C10_quota_consumed_first_witness :
    (get_substitutes 3 0 none itemNoCategory envEmpty).1 = some ⟨0, 1⟩ ∧
    (get_substitutes 3 0 none itemNoCategory envEmpty).2 =
      some [Event.error "Both supercategory and category are required."] := by
  have h := claim_C10_quota_consumed_first 3 0 none itemNoCategory envEmpty
    (by decide)
  exact ⟨h.1, h.2.1.trans (by with_unfolding_all rfl)⟩
